import Mathlib

/-!
Verification development for the Data_API repository.

Shallow embedding of the two core components:
* `VectorStoreService` (src/api_services/services/vector_store_service.py):
  ingestion-job creation (`create_ingestion_job`), status lookup
  (`get_job_status`) and sequential per-item processing (`process_ingestion`
  with its helper `_fetch_and_save_file`).
* `ConnectionManager` (src/api_services/config.py): connection creation
  (`create_connection`), metadata probe (`_get_connection_metadata`),
  retrieval (`get_connection`), close (`close_connection`) and enumeration
  (`list_connections`).

Python dictionaries are modelled as association lists with front insertion
(assignment overwrites the old binding, deletion removes it); no claim in
this development observes iteration order.  Timestamps (`datetime.now()`)
are passed in as opaque strings.  Fresh identifiers (`uuid`-based) are
passed in as explicit string arguments.  The external world (Google Drive /
SharePoint downloads, the `process_pdf_and_stream` pipeline, per-source
client construction and the reachability probes) is modelled by environment
records of functions; the local filesystem (`os.path.exists` / `os.remove` /
file creation by downloads) is a list of existing paths.
-/

namespace DataAPI

/-- Lookup in a Python-dict model (association list): first binding wins. -/
def dictLookup {α : Type} (k : String) : List (String × α) → Option α
  | [] => none
  | kv :: rest => if kv.1 = k then some kv.2 else dictLookup k rest

/-- Deletion in a Python-dict model: removes every binding of the key
(the model keeps at most one, so this is `del d[k]`). -/
def dictErase {α : Type} (k : String) : List (String × α) → List (String × α)
  | [] => []
  | kv :: rest => if kv.1 = k then dictErase k rest else kv :: dictErase k rest

/-- Assignment `d[k] = v` in a Python-dict model: overwrites any old
binding.  Iteration order differs from CPython (front vs. in-place) but no
claim observes order. -/
def dictInsert {α : Type} (k : String) (v : α) (l : List (String × α)) :
    List (String × α) :=
  (k, v) :: dictErase k l

/-- `DataSourceType` enumeration (src/api_services/models.py). -/
inductive DataSourceType : Type
  | confluence
  | gdrive
  | jira
  | local_pdf
  | sharepoint
deriving DecidableEq

/-- The `.value` of each enum member (the string payload of the Python
`str, Enum`). -/
def DataSourceType.value : DataSourceType → String
  | .confluence => "confluence"
  | .gdrive => "gdrive"
  | .jira => "jira"
  | .local_pdf => "local_pdf"
  | .sharepoint => "sharepoint"

/-- `IngestionProgress` Pydantic model: per-item progress record. -/
structure IngestionProgress : Type where
  file_id : String
  file_name : String
  status : String
  chunks_created : Option Nat
  error : Option String
deriving DecidableEq

/-- `IngestionRequest` Pydantic model.  `metadata` maps string keys to
opaque values, modelled as string pairs. -/
structure IngestionRequest : Type where
  source_type : Option DataSourceType
  connection_id : String
  file_ids : List String
  collection_name : Option String
  chunk_size : Nat
  chunk_overlap : Nat
  metadata : Option (List (String × String))
deriving DecidableEq

/-- `IngestionResponse` Pydantic model. -/
structure IngestionResponse : Type where
  success : Bool
  job_id : String
  message : String
  total_files : Nat
  progress : List IngestionProgress
deriving DecidableEq

/-- One entry of `VectorStoreService.ingestion_jobs`: the job-tracking dict
built in `create_ingestion_job` (all keys of the Python dict literal). -/
structure Job : Type where
  job_id : String
  status : String
  source_type : Option DataSourceType
  connection_id : String
  file_ids : List String
  collection_name : String
  total_files : Nat
  completed_files : Nat
  failed_files : Nat
  progress : List IngestionProgress
  started_at : String
  chunk_size : Nat
  chunk_overlap : Nat
  metadata : List (String × String)
  completed_at : Option String
deriving DecidableEq

/-- `IngestionStatus` Pydantic model, as constructed by
`IngestionStatus(**job)` (extra dict keys are ignored by the model). -/
structure IngestionStatus : Type where
  job_id : String
  status : String
  total_files : Nat
  completed_files : Nat
  failed_files : Nat
  progress : List IngestionProgress
  started_at : Option String
  completed_at : Option String
deriving DecidableEq

/-- The mutable state of `VectorStoreService`: the `ingestion_jobs` dict.
(The vector-store loader and API key play no part in the claims.) -/
structure VectorStoreService : Type where
  ingestion_jobs : List (String × Job)
deriving DecidableEq

/-- Python `request.collection_name or f"collection_{request.source_type.value}"`:
the default is taken when `collection_name` is `None` or `""` (falsy), and
evaluating the default with `source_type = None` raises `AttributeError`. -/
def default_collection_name (req : IngestionRequest) : Except String String :=
  match req.source_type with
  | some st => Except.ok ("collection_" ++ st.value)
  | none => Except.error "AttributeError: NoneType object has no attribute value"

/-- Resolution of the `collection_name` field stored by
`create_ingestion_job` (line 76 of vector_store_service.py). -/
def resolve_collection_name (req : IngestionRequest) : Except String String :=
  match req.collection_name with
  | some s => if s = "" then default_collection_name req else Except.ok s
  | none => default_collection_name req

/-- The initial job-tracking dict stored by `create_ingestion_job`
(lines 70-85 of vector_store_service.py). -/
def initial_job (job_id now : String) (req : IngestionRequest) (cn : String) : Job :=
  { job_id := job_id
    status := "pending"
    source_type := req.source_type
    connection_id := req.connection_id
    file_ids := req.file_ids
    collection_name := cn
    total_files := req.file_ids.length
    completed_files := 0
    failed_files := 0
    progress := []
    started_at := now
    chunk_size := req.chunk_size
    chunk_overlap := req.chunk_overlap
    metadata := req.metadata.getD []
    completed_at := none }

/-- `VectorStoreService.create_ingestion_job` (lines 62-93): stores the
initial job record and returns an `IngestionResponse` with an empty
progress list.  `job_id` models the fresh `job_{uuid}` string and `now`
the `datetime.now().isoformat()` timestamp. -/
def create_ingestion_job (s : VectorStoreService) (job_id now : String)
    (req : IngestionRequest) :
    Except String (VectorStoreService × IngestionResponse) :=
  match resolve_collection_name req with
  | Except.error e => Except.error e
  | Except.ok cn =>
    Except.ok
      (⟨dictInsert job_id (initial_job job_id now req cn) s.ingestion_jobs⟩,
       { success := true
         job_id := job_id
         message := "Ingestion job created for " ++ toString req.file_ids.length
           ++ " files"
         total_files := req.file_ids.length
         progress := [] })

/-- `VectorStoreService.get_job_status` (lines 95-101): `ValueError` on an
unknown id, otherwise `IngestionStatus(**job)`. -/
def get_job_status (s : VectorStoreService) (job_id : String) :
    Except String IngestionStatus :=
  match dictLookup job_id s.ingestion_jobs with
  | none => Except.error ("Job not found: " ++ job_id)
  | some j =>
    Except.ok
      { job_id := j.job_id
        status := j.status
        total_files := j.total_files
        completed_files := j.completed_files
        failed_files := j.failed_files
        progress := j.progress
        started_at := some j.started_at
        completed_at := j.completed_at }

/-- External world seen by `process_ingestion`:
`gdrive_download id = some p` models a successful metadata fetch plus
download creating the file `p` (any exception is caught inside
`_fetch_and_save_file` and modelled as `none`); likewise for
`sharepoint_download`.  `pipeline p` models running
`process_pdf_and_stream p` to completion: `Except.ok c` is a successful run
whose emitted `"Added N chunks"` messages sum to `c`; `Except.error e` is a
raised exception with message `e`. -/
structure Env : Type where
  gdrive_download : String → Option String
  sharepoint_download : String → Option String
  pipeline : String → Except String Nat

/-- `VectorStoreService._fetch_and_save_file` (lines 178-241), together
with its effect on the filesystem `fs` (list of existing paths).  Local
PDF: the identifier is used directly as a path, no copy is made.
Confluence and JIRA: unimplemented, return `None` after printing a
warning.  Remote sources: download to a temp path (added to `fs`).  Any
internal exception is caught and yields `None`. -/
def fetch_and_save_file (env : Env) (fs : List String) (st : DataSourceType)
    (file_id : String) : Option String × List String :=
  match st with
  | .local_pdf => if file_id ∈ fs then (some file_id, fs) else (none, fs)
  | .gdrive =>
    match env.gdrive_download file_id with
    | some p => (some p, p :: fs)
    | none => (none, fs)
  | .confluence => (none, fs)
  | .jira => (none, fs)
  | .sharepoint =>
    match env.sharepoint_download file_id with
    | some p => (some p, p :: fs)
    | none => (none, fs)

/-- `os.path.basename`. -/
def os_path_basename (p : String) : String :=
  (p.splitOn "/").getLastD p

/-- `os.remove p` guarded by `os.path.exists p` (lines 158-159): the path
no longer exists afterwards. -/
def removeFile (p : String) (fs : List String) : List String :=
  fs.filter (fun q => q != p)

/-- One iteration of the `for file_id in file_ids` loop of
`process_ingestion` (lines 120-172), acting on the job record and the
filesystem.  The locally created `processing` record is only appended once
its final status (`completed`/`failed`) is set, exactly as in the source;
a raised pipeline exception is caught per item (lines 166-170). -/
def process_one (env : Env) (st : DataSourceType) (acc : Job × List String)
    (file_id : String) : Job × List String :=
  match fetch_and_save_file env acc.2 st file_id with
  | (some temp_path, fs1) =>
    match env.pipeline temp_path with
    | Except.ok chunks =>
      ({ acc.1 with
          completed_files := acc.1.completed_files + 1
          progress := acc.1.progress ++
            [{ file_id := file_id
               file_name := os_path_basename temp_path
               status := "completed"
               chunks_created := some chunks
               error := none }] },
       removeFile temp_path fs1)
    | Except.error e =>
      ({ acc.1 with
          failed_files := acc.1.failed_files + 1
          progress := acc.1.progress ++
            [{ file_id := file_id
               file_name := file_id
               status := "failed"
               chunks_created := some 0
               error := some e }] },
       fs1)
  | (none, fs1) =>
    ({ acc.1 with
        failed_files := acc.1.failed_files + 1
        progress := acc.1.progress ++
          [{ file_id := file_id
             file_name := file_id
             status := "failed"
             chunks_created := some 0
             error := some "Failed to fetch file" }] },
     fs1)

/-- The job record and filesystem after the first `k` loop iterations of
`process_ingestion` (status already set to `in_progress`, line 114). -/
def processState (env : Env) (st : DataSourceType) (j : Job)
    (fs : List String) (k : Nat) : Job × List String :=
  (j.file_ids.take k).foldl (process_one env st)
    ({ j with status := "in_progress" }, fs)

/-- `VectorStoreService.process_ingestion` (lines 103-176): `ValueError`
on an unknown job id; otherwise runs the loop over all `file_ids` and sets
the terminal status (`completed` iff no failures, else `partial`) and the
completion timestamp `now2`.  Returns the updated service state and
filesystem. -/
def process_ingestion (env : Env) (s : VectorStoreService) (fs : List String)
    (job_id : String) (st : DataSourceType) (now2 : String) :
    Except String (VectorStoreService × List String) :=
  match dictLookup job_id s.ingestion_jobs with
  | none => Except.error ("Job not found: " ++ job_id)
  | some j =>
    let res := j.file_ids.foldl (process_one env st)
      ({ j with status := "in_progress" }, fs)
    let final : Job :=
      { res.1 with
          status := if res.1.failed_files = 0 then "completed" else "partial"
          completed_at := some now2 }
    Except.ok (⟨dictInsert job_id final s.ingestion_jobs⟩, res.2)

/-- One entry of `ConnectionManager._connections` (config.py lines 58-64):
the client handle is opaque (a `Nat`), `none` until initialised. -/
structure Connection : Type where
  source_type : DataSourceType
  config : List (String × String)
  created_at : String
  last_used : String
  client : Option Nat
deriving DecidableEq

/-- The metadata dict built by `_get_connection_metadata` (lines 130-167):
base fields, a `status`, an `error` message when the probe raised, and
source-specific extra fields on success. -/
structure ConnMetadata : Type where
  source_type : String
  connected_at : String
  status : Option String
  error : Option String
  extra : List (String × String)
deriving DecidableEq

/-- External world seen by the registry: `initClient st cfg` models
`_initialize_client` (lines 81-128) — client construction from the
source-specific configuration, raising on missing keys or construction
failure; `probe st c` models the read-only reachability probe of
`_get_connection_metadata` (one lightweight call plus attribute reads),
returning the source-specific extra metadata fields on success. -/
structure ConnEnv : Type where
  initClient : DataSourceType → List (String × String) → Except String Nat
  probe : DataSourceType → Nat → Except String (List (String × String))

/-- The mutable state of `ConnectionManager`: the `_connections` dict. -/
structure ConnectionManager : Type where
  _connections : List (String × Connection)
deriving DecidableEq

/-- `ConnectionManager._get_connection_metadata` (lines 130-167): every
probe exception is caught and recorded as `status = error` with the
exception text; on success `status = connected` plus extra fields. -/
def get_connection_metadata (env : ConnEnv) (st : DataSourceType)
    (client : Nat) (now : String) : ConnMetadata :=
  match env.probe st client with
  | Except.ok extra =>
    { source_type := st.value
      connected_at := now
      status := some "connected"
      error := none
      extra := extra }
  | Except.error e =>
    { source_type := st.value
      connected_at := now
      status := some "error"
      error := some e
      extra := [] }

/-- `ConnectionManager.create_connection` (lines 44-79): stores a stub
entry, initialises the client, and on failure deletes the entry and raises
`Exception(f"Failed to initialize {source_type.value} client: {cause}")`;
on success stores the client, runs the (never-raising) metadata probe and
returns `(connection_id, metadata)`.  The resulting registry state is
returned in both cases.  `connection_id` models the fresh
`{source_type}_{uuid}` string and `now` the creation timestamp. -/
def create_connection (env : ConnEnv) (m : ConnectionManager)
    (connection_id now : String) (st : DataSourceType)
    (config : List (String × String)) :
    ConnectionManager × Except String (String × ConnMetadata) :=
  let stub : Connection :=
    { source_type := st
      config := config
      created_at := now
      last_used := now
      client := none }
  let m1 : List (String × Connection) :=
    dictInsert connection_id stub m._connections
  match env.initClient st config with
  | Except.error e =>
    (⟨dictErase connection_id m1⟩,
     Except.error ("Failed to initialize " ++ st.value ++ " client: " ++ e))
  | Except.ok client =>
    let m2 : List (String × Connection) :=
      dictInsert connection_id { stub with client := some client } m1
    (⟨m2⟩,
     Except.ok (connection_id, get_connection_metadata env st client now))

/-- `ConnectionManager.get_connection` (lines 169-177): `ValueError` on an
unknown id, otherwise refreshes `last_used` (to `now`) and returns the
record. -/
def get_connection (m : ConnectionManager) (connection_id now : String) :
    Except String (ConnectionManager × Connection) :=
  match dictLookup connection_id m._connections with
  | none => Except.error ("Connection not found: " ++ connection_id)
  | some conn =>
    let conn1 : Connection := { conn with last_used := now }
    Except.ok (⟨dictInsert connection_id conn1 m._connections⟩, conn1)

/-- `ConnectionManager.close_connection` (lines 184-190): removes the
entry when present and reports whether one existed. -/
def close_connection (m : ConnectionManager) (connection_id : String) :
    ConnectionManager × Bool :=
  if (dictLookup connection_id m._connections).isSome then
    (⟨dictErase connection_id m._connections⟩, true)
  else
    (m, false)

/-- `ConnectionManager.list_connections` (lines 192-201): snapshot of
id, source type, created and last-used timestamps. -/
def list_connections (m : ConnectionManager) :
    List (String × String × String × String) :=
  m._connections.map
    (fun kv => (kv.1, kv.2.source_type.value, kv.2.created_at, kv.2.last_used))

/-! Concrete sample values used by the closed witness theorems. -/

/-- A request with an empty item list (source type present). -/
def reqEmpty : IngestionRequest :=
  { source_type := some DataSourceType.local_pdf
    connection_id := "conn1"
    file_ids := []
    collection_name := none
    chunk_size := 1000
    chunk_overlap := 200
    metadata := none }

/-- A request with two local items. -/
def reqTwo : IngestionRequest :=
  { source_type := some DataSourceType.local_pdf
    connection_id := "conn1"
    file_ids := ["a.pdf", "b.pdf"]
    collection_name := none
    chunk_size := 1000
    chunk_overlap := 200
    metadata := none }

/-- An environment in which every remote fetch and every pipeline run
fails. -/
def envNone : Env :=
  { gdrive_download := fun _ => none
    sharepoint_download := fun _ => none
    pipeline := fun _ => Except.error "boom" }

/-- An environment in which every pipeline run succeeds with 5 chunks. -/
def envPipeOk : Env :=
  { gdrive_download := fun _ => none
    sharepoint_download := fun _ => none
    pipeline := fun _ => Except.ok 5 }

/-- A registry environment in which client construction always fails. -/
def connEnvInitFail : ConnEnv :=
  { initClient := fun _ _ => Except.error "bad credentials"
    probe := fun _ _ => Except.error "unreachable" }

/-- A registry environment in which construction succeeds (handle 7) but
the probe always fails. -/
def connEnvProbeFail : ConnEnv :=
  { initClient := fun _ _ => Except.ok 7
    probe := fun _ _ => Except.error "unreachable" }

/-- A one-connection registry. -/
def mgrOne : ConnectionManager :=
  ⟨[("local_pdf_ab12cd34",
     { source_type := DataSourceType.local_pdf
       config := []
       created_at := "t0"
       last_used := "t0"
       client := some 1 })]⟩

/-- The job record `create_ingestion_job` stores for `reqTwo`. -/
def jobTwo : Job := initial_job "job_1" "t0" reqTwo "collection_local_pdf"

/-- The service state after creating `jobTwo` in an empty service. -/
def svcTwo : VectorStoreService := ⟨[("job_1", jobTwo)]⟩

/-- The response `create_ingestion_job` returns for `reqTwo`. -/
def respTwo : IngestionResponse :=
  { success := true
    job_id := "job_1"
    message := "Ingestion job created for 2 files"
    total_files := 2
    progress := [] }

/-- The job record `create_ingestion_job` stores for `reqEmpty`. -/
def jobEmptyReq : Job := initial_job "job_0" "t0" reqEmpty "collection_local_pdf"

/-- The service state after creating `jobEmptyReq` in an empty service. -/
def svcAfterEmpty : VectorStoreService := ⟨[("job_0", jobEmptyReq)]⟩

/-- The response `create_ingestion_job` returns for `reqEmpty`. -/
def respEmpty : IngestionResponse :=
  { success := true
    job_id := "job_0"
    message := "Ingestion job created for 0 files"
    total_files := 0
    progress := [] }

/-- An empty registry. -/
def mgrEmpty : ConnectionManager := ⟨[]⟩

/-- An empty service. -/
def svcEmpty : VectorStoreService := ⟨[]⟩

/-! Helper lemmas about the dictionary model. -/

theorem dictLookup_insert_self {α : Type} (k : String) (v : α)
    (l : List (String × α)) : dictLookup k (dictInsert k v l) = some v := by
  simp [dictInsert, dictLookup]

theorem dictErase_of_lookup_none {α : Type} (k : String) :
    ∀ l : List (String × α), dictLookup k l = none → dictErase k l = l := by
  intro l
  induction l with
  | nil => intro _; rfl
  | cons kv rest ih =>
    intro h
    by_cases hk : kv.1 = k
    · simp [dictLookup, hk] at h
    · simp [dictLookup, hk] at h
      simp [dictErase, hk, ih h]

theorem dictErase_erase {α : Type} (k : String) :
    ∀ l : List (String × α), dictErase k (dictErase k l) = dictErase k l := by
  intro l
  induction l with
  | nil => rfl
  | cons kv rest ih =>
    by_cases hk : kv.1 = k
    · simp [dictErase, hk, ih]
    · simp [dictErase, hk, ih]

theorem dictLookup_erase_self {α : Type} (k : String) :
    ∀ l : List (String × α), dictLookup k (dictErase k l) = none := by
  intro l
  induction l with
  | nil => rfl
  | cons kv rest ih =>
    by_cases hk : kv.1 = k
    · simp [dictErase, hk, ih]
    · simp [dictErase, dictLookup, hk, ih]

theorem dictErase_insert {α : Type} (k : String) (v : α)
    (l : List (String × α)) (h : dictLookup k l = none) :
    dictErase k (dictInsert k v l) = l := by
  simp [dictInsert, dictErase, dictErase_erase, dictErase_of_lookup_none k l h]

/-! Helper lemmas about one loop iteration of `process_ingestion`. -/

theorem process_one_sum (env : Env) (st : DataSourceType)
    (acc : Job × List String) (x : String) :
    (process_one env st acc x).1.completed_files
      + (process_one env st acc x).1.failed_files
      = acc.1.completed_files + acc.1.failed_files + 1 := by
  cases hf : fetch_and_save_file env acc.2 st x with
  | mk o fs1 =>
    cases o with
    | none => simp [process_one, hf]; omega
    | some p =>
      cases hp : env.pipeline p with
      | ok c => simp [process_one, hf, hp]; omega
      | error e => simp [process_one, hf, hp]; omega

theorem process_one_fids (env : Env) (st : DataSourceType)
    (acc : Job × List String) (x : String) :
    (process_one env st acc x).1.progress.map (fun r => r.file_id)
      = acc.1.progress.map (fun r => r.file_id) ++ [x] := by
  cases hf : fetch_and_save_file env acc.2 st x with
  | mk o fs1 =>
    cases o with
    | none => simp [process_one, hf]
    | some p =>
      cases hp : env.pipeline p with
      | ok c => simp [process_one, hf, hp]
      | error e => simp [process_one, hf, hp]

theorem process_one_fields (env : Env) (st : DataSourceType)
    (acc : Job × List String) (x : String) :
    (process_one env st acc x).1.total_files = acc.1.total_files
    ∧ (process_one env st acc x).1.status = acc.1.status
    ∧ (process_one env st acc x).1.file_ids = acc.1.file_ids := by
  cases hf : fetch_and_save_file env acc.2 st x with
  | mk o fs1 =>
    cases o with
    | none => simp [process_one, hf]
    | some p =>
      cases hp : env.pipeline p with
      | ok c => simp [process_one, hf, hp]
      | error e => simp [process_one, hf, hp]

theorem process_one_err (env : Env) (st : DataSourceType)
    (acc : Job × List String) (x : String)
    (h : ∀ r ∈ acc.1.progress, r.status = "failed" → ∃ e, r.error = some e) :
    ∀ r ∈ (process_one env st acc x).1.progress,
      r.status = "failed" → ∃ e, r.error = some e := by
  intro r hr
  cases hf : fetch_and_save_file env acc.2 st x with
  | mk o fs1 =>
    cases o with
    | none =>
      simp [process_one, hf] at hr
      rcases hr with hr | hr
      · exact h r hr
      · intro _; exact ⟨"Failed to fetch file", by simp [hr]⟩
    | some p =>
      cases hp : env.pipeline p with
      | ok c =>
        simp [process_one, hf, hp] at hr
        rcases hr with hr | hr
        · exact h r hr
        · intro hfail; rw [hr] at hfail; simp at hfail
      | error e =>
        simp [process_one, hf, hp] at hr
        rcases hr with hr | hr
        · exact h r hr
        · intro _; exact ⟨e, by simp [hr]⟩

/-! Helper lemmas about the whole loop (`foldl` over the item list). -/

theorem foldl_sum (env : Env) (st : DataSourceType) (xs : List String) :
    ∀ acc : Job × List String,
      (xs.foldl (process_one env st) acc).1.completed_files
        + (xs.foldl (process_one env st) acc).1.failed_files
        = acc.1.completed_files + acc.1.failed_files + xs.length := by
  induction xs with
  | nil => intro acc; simp
  | cons x xs ih =>
    intro acc
    have h1 := process_one_sum env st acc x
    have h2 := ih (process_one env st acc x)
    simp only [List.foldl_cons, List.length_cons]
    omega

theorem foldl_fids (env : Env) (st : DataSourceType) (xs : List String) :
    ∀ acc : Job × List String,
      (xs.foldl (process_one env st) acc).1.progress.map (fun r => r.file_id)
        = acc.1.progress.map (fun r => r.file_id) ++ xs := by
  induction xs with
  | nil => intro acc; simp
  | cons x xs ih =>
    intro acc
    rw [List.foldl_cons, ih (process_one env st acc x), process_one_fids]
    simp

theorem foldl_fields (env : Env) (st : DataSourceType) (xs : List String) :
    ∀ acc : Job × List String,
      (xs.foldl (process_one env st) acc).1.total_files = acc.1.total_files
      ∧ (xs.foldl (process_one env st) acc).1.status = acc.1.status
      ∧ (xs.foldl (process_one env st) acc).1.file_ids = acc.1.file_ids := by
  induction xs with
  | nil => intro acc; exact ⟨rfl, rfl, rfl⟩
  | cons x xs ih =>
    intro acc
    have h1 := process_one_fields env st acc x
    have h2 := ih (process_one env st acc x)
    rw [List.foldl_cons]
    exact ⟨h2.1.trans h1.1, h2.2.1.trans h1.2.1, h2.2.2.trans h1.2.2⟩

theorem foldl_err (env : Env) (st : DataSourceType) (xs : List String) :
    ∀ acc : Job × List String,
      (∀ r ∈ acc.1.progress, r.status = "failed" → ∃ e, r.error = some e) →
      ∀ r ∈ (xs.foldl (process_one env st) acc).1.progress,
        r.status = "failed" → ∃ e, r.error = some e := by
  induction xs with
  | nil => intro acc h; exact h
  | cons x xs ih =>
    intro acc h
    exact ih (process_one env st acc x) (process_one_err env st acc x h)

theorem foldl_unsupported (env : Env) (st : DataSourceType)
    (hst : st = DataSourceType.confluence ∨ st = DataSourceType.jira)
    (xs : List String) :
    ∀ (j : Job) (fs : List String),
      xs.foldl (process_one env st) (j, fs)
        = ({ j with
              failed_files := j.failed_files + xs.length
              progress := j.progress ++ xs.map (fun x =>
                { file_id := x
                  file_name := x
                  status := "failed"
                  chunks_created := some 0
                  error := some "Failed to fetch file" }) }, fs) := by
  induction xs with
  | nil => intro j fs; simp
  | cons x xs ih =>
    intro j fs
    have hone : process_one env st (j, fs) x
        = ({ j with
              failed_files := j.failed_files + 1
              progress := j.progress ++
                [{ file_id := x
                   file_name := x
                   status := "failed"
                   chunks_created := some 0
                   error := some "Failed to fetch file" }] }, fs) := by
      rcases hst with h | h <;> subst h <;>
        simp [process_one, fetch_and_save_file]
    rw [List.foldl_cons, hone, ih]
    simp [Job.mk.injEq, List.append_assoc]
    omega

/-! Elimination / computation lemmas for the two driver functions. -/

theorem create_ok_elim {s : VectorStoreService} {job_id now : String}
    {req : IngestionRequest} {s1 : VectorStoreService}
    {resp : IngestionResponse}
    (h : create_ingestion_job s job_id now req = Except.ok (s1, resp)) :
    ∃ cn, resolve_collection_name req = Except.ok cn
      ∧ s1 = ⟨dictInsert job_id (initial_job job_id now req cn) s.ingestion_jobs⟩
      ∧ resp = { success := true
                 job_id := job_id
                 message := "Ingestion job created for "
                   ++ toString req.file_ids.length ++ " files"
                 total_files := req.file_ids.length
                 progress := [] } := by
  unfold create_ingestion_job at h
  cases hr : resolve_collection_name req with
  | error e => rw [hr] at h; cases h
  | ok cn =>
    rw [hr] at h
    refine ⟨cn, rfl, ?_, ?_⟩
    · cases h; rfl
    · cases h; rfl

theorem process_ingestion_eq {env : Env} {s : VectorStoreService}
    {fs : List String} {job_id : String} {st : DataSourceType}
    {now2 : String} {j : Job}
    (hj : dictLookup job_id s.ingestion_jobs = some j) :
    process_ingestion env s fs job_id st now2
      = Except.ok
          (⟨dictInsert job_id
              { (processState env st j fs j.file_ids.length).1 with
                status :=
                  if (processState env st j fs j.file_ids.length).1.failed_files = 0
                  then "completed" else "partial"
                completed_at := some now2 }
              s.ingestion_jobs⟩,
           (processState env st j fs j.file_ids.length).2) := by
  unfold process_ingestion processState
  rw [hj]
  simp [List.take_length]

theorem process_ingestion_spec (env : Env) (st : DataSourceType)
    (s : VectorStoreService) (fs : List String) (job_id now2 : String)
    (j : Job) (hj : dictLookup job_id s.ingestion_jobs = some j) :
    ∃ s2 fs2 jf,
      process_ingestion env s fs job_id st now2 = Except.ok (s2, fs2)
      ∧ dictLookup job_id s2.ingestion_jobs = some jf
      ∧ jf.completed_files
          = (processState env st j fs j.file_ids.length).1.completed_files
      ∧ jf.failed_files
          = (processState env st j fs j.file_ids.length).1.failed_files
      ∧ jf.total_files
          = (processState env st j fs j.file_ids.length).1.total_files
      ∧ jf.progress = (processState env st j fs j.file_ids.length).1.progress
      ∧ jf.status
          = (if (processState env st j fs j.file_ids.length).1.failed_files = 0
             then "completed" else "partial") := by
  refine ⟨_, _, _, process_ingestion_eq hj, dictLookup_insert_self _ _ _,
    rfl, rfl, rfl, rfl, rfl⟩

/-! Claim theorems. -/

/-- C1, counterexample: `create_ingestion_job` performs no validation at
all — a request with an empty item-id list succeeds (`success = true`) and
a Job record IS stored in the job map, contradicting the claim that it
fails with a `ValidationError` and stores nothing. -/
theorem C1_counterexample :
    ∃ s1 resp,
      create_ingestion_job svcEmpty "job_0" "t0" reqEmpty = Except.ok (s1, resp)
      ∧ resp.success = true
      ∧ (dictLookup "job_0" s1.ingestion_jobs).isSome = true := by
  exact ⟨svcAfterEmpty, respEmpty, rfl, rfl, rfl⟩

/-- C1 (amended): a job-creation request with an empty item-id list is NOT
rejected: whenever the stored collection name resolves, the call succeeds
and stores a Job record with status `pending` and `total_files = 0`, so a
job record can exist even though the requested item list was empty. -/
theorem C1_amended (s : VectorStoreService) (job_id now : String)
    (req : IngestionRequest) (hempty : req.file_ids = [])
    (cn : String) (hcn : resolve_collection_name req = Except.ok cn) :
    ∃ s1 resp,
      create_ingestion_job s job_id now req = Except.ok (s1, resp)
      ∧ resp.success = true
      ∧ ∃ j, dictLookup job_id s1.ingestion_jobs = some j
          ∧ j.status = "pending" ∧ j.total_files = 0 ∧ j.progress = [] := by
  have hc : create_ingestion_job s job_id now req
      = Except.ok
          (⟨dictInsert job_id (initial_job job_id now req cn) s.ingestion_jobs⟩,
           { success := true
             job_id := job_id
             message := "Ingestion job created for "
               ++ toString req.file_ids.length ++ " files"
             total_files := req.file_ids.length
             progress := [] }) := by
    unfold create_ingestion_job
    rw [hcn]
  refine ⟨_, _, hc, rfl, initial_job job_id now req cn,
    dictLookup_insert_self _ _ _, rfl, ?_, rfl⟩
  simp [initial_job, hempty]

/-- C1, witness for the amended theorem at a concrete empty request. -/
theorem C1_amended_witness :
    reqEmpty.file_ids = []
    ∧ resolve_collection_name reqEmpty = Except.ok "collection_local_pdf"
    ∧ ∃ s1 resp,
        create_ingestion_job svcEmpty "job_0" "t0" reqEmpty = Except.ok (s1, resp)
        ∧ resp.success = true
        ∧ ∃ j, dictLookup "job_0" s1.ingestion_jobs = some j
            ∧ j.status = "pending" ∧ j.total_files = 0 ∧ j.progress = [] :=
  ⟨rfl, rfl, C1_amended svcEmpty "job_0" "t0" reqEmpty rfl "collection_local_pdf" rfl⟩

/-- C2, counterexample: for a request with 2 item identifiers the stored
Job record carries an EMPTY progress list (`job['progress'] = []`,
line 80), not one `pending` Progress record per item. -/
theorem C2_counterexample :
    ∃ s1 resp,
      create_ingestion_job svcEmpty "job_1" "t0" reqTwo = Except.ok (s1, resp)
      ∧ ∃ j, dictLookup "job_1" s1.ingestion_jobs = some j
          ∧ j.total_files = 2 ∧ j.progress = [] := by
  exact ⟨_, _, rfl, jobTwo, rfl, rfl, rfl⟩

/-- C2 (amended): immediately after `create_ingestion_job` returns, the
stored Job record has status `pending`, `total_files = n` and an EMPTY
progress list (no Progress records are materialised at creation), while
the returned response also carries an empty progress list. -/
theorem C2_amended (s : VectorStoreService) (job_id now : String)
    (req : IngestionRequest) (s1 : VectorStoreService)
    (resp : IngestionResponse)
    (hc : create_ingestion_job s job_id now req = Except.ok (s1, resp)) :
    resp.progress = [] ∧ resp.total_files = req.file_ids.length
    ∧ ∃ j, dictLookup job_id s1.ingestion_jobs = some j
        ∧ j.status = "pending" ∧ j.total_files = req.file_ids.length
        ∧ j.file_ids = req.file_ids ∧ j.progress = [] := by
  obtain ⟨cn, hcn, hs1, hresp⟩ := create_ok_elim hc
  subst hs1
  subst hresp
  exact ⟨rfl, rfl, initial_job job_id now req cn,
    dictLookup_insert_self _ _ _, rfl, rfl, rfl, rfl⟩

/-- C2, witness for the amended theorem at a concrete 2-item request. -/
theorem C2_amended_witness :
    respTwo.progress = [] ∧ respTwo.total_files = reqTwo.file_ids.length
    ∧ ∃ j, dictLookup "job_1" svcTwo.ingestion_jobs = some j
        ∧ j.status = "pending" ∧ j.total_files = reqTwo.file_ids.length
        ∧ j.file_ids = reqTwo.file_ids ∧ j.progress = [] :=
  C2_amended svcEmpty "job_1" "t0" reqTwo svcTwo respTwo rfl

/-- C4: when client construction fails, `create_connection` reports an
error naming the source type and the underlying cause and leaves the
connection map exactly as it was: the registry state equals the original,
`list_connections` is unchanged, and the freshly minted identifier is
absent. -/
theorem C4_atomic (env : ConnEnv) (m : ConnectionManager)
    (connection_id now : String) (st : DataSourceType)
    (config : List (String × String))
    (hfresh : dictLookup connection_id m._connections = none)
    (e : String) (hfail : env.initClient st config = Except.error e) :
    (create_connection env m connection_id now st config).2
      = Except.error ("Failed to initialize " ++ st.value ++ " client: " ++ e)
    ∧ (create_connection env m connection_id now st config).1 = m
    ∧ list_connections (create_connection env m connection_id now st config).1
        = list_connections m
    ∧ dictLookup connection_id
        (create_connection env m connection_id now st config).1._connections
        = none := by
  have key : create_connection env m connection_id now st config
      = (⟨m._connections⟩,
         Except.error ("Failed to initialize " ++ st.value ++ " client: " ++ e)) := by
    simp [create_connection, hfail,
      dictErase_insert connection_id _ m._connections hfresh]
  rw [key]
  exact ⟨rfl, rfl, rfl, hfresh⟩

/-- C4, witness: confluence creation against an environment whose client
construction fails, starting from the empty registry. -/
theorem C4_atomic_witness :
    (create_connection connEnvInitFail mgrEmpty "confluence_deadbeef" "t0"
        DataSourceType.confluence []).2
      = Except.error ("Failed to initialize "
          ++ DataSourceType.confluence.value ++ " client: " ++ "bad credentials")
    ∧ (create_connection connEnvInitFail mgrEmpty "confluence_deadbeef" "t0"
        DataSourceType.confluence []).1 = mgrEmpty
    ∧ list_connections (create_connection connEnvInitFail mgrEmpty
        "confluence_deadbeef" "t0" DataSourceType.confluence []).1
        = list_connections mgrEmpty
    ∧ dictLookup "confluence_deadbeef"
        (create_connection connEnvInitFail mgrEmpty "confluence_deadbeef" "t0"
          DataSourceType.confluence []).1._connections
        = none :=
  C4_atomic connEnvInitFail mgrEmpty "confluence_deadbeef" "t0"
    DataSourceType.confluence [] rfl "bad credentials" rfl

/-- C7: when client construction succeeds but the metadata probe fails,
`create_connection` still returns successfully with the connection id, the
probe failure is recorded as metadata status `error` with the diagnostic
text, and the connection remains stored and retrievable via
`get_connection` with a non-null client handle. -/
theorem C7_probe (env : ConnEnv) (m : ConnectionManager)
    (connection_id now now2 : String) (st : DataSourceType)
    (config : List (String × String)) (client : Nat)
    (hinit : env.initClient st config = Except.ok client)
    (e : String) (hprobe : env.probe st client = Except.error e) :
    ∃ md, (create_connection env m connection_id now st config).2
        = Except.ok (connection_id, md)
      ∧ md.status = some "error" ∧ md.error = some e
      ∧ ∃ conn,
          dictLookup connection_id
            (create_connection env m connection_id now st config).1._connections
            = some conn
          ∧ conn.client = some client
          ∧ ∃ m3 conn2,
              get_connection
                (create_connection env m connection_id now st config).1
                connection_id now2
                = Except.ok (m3, conn2)
              ∧ conn2.client = some client := by
  have key : create_connection env m connection_id now st config
      = (⟨dictInsert connection_id
            { source_type := st
              config := config
              created_at := now
              last_used := now
              client := some client }
            (dictInsert connection_id
              { source_type := st
                config := config
                created_at := now
                last_used := now
                client := none }
              m._connections)⟩,
         Except.ok (connection_id, get_connection_metadata env st client now)) := by
    simp [create_connection, hinit]
  rw [key]
  have hmd : get_connection_metadata env st client now
      = { source_type := st.value
          connected_at := now
          status := some "error"
          error := some e
          extra := [] } := by
    simp [get_connection_metadata, hprobe]
  rw [hmd]
  refine ⟨_, rfl, rfl, rfl, _, dictLookup_insert_self _ _ _, ?_, ?_⟩
  · rfl
  · unfold get_connection
    rw [dictLookup_insert_self]
    exact ⟨_, _, rfl, rfl⟩

/-- C7, witness: a gdrive connection whose construction yields handle 7
and whose probe fails with `unreachable`. -/
theorem C7_probe_witness :
    ∃ md, (create_connection connEnvProbeFail mgrEmpty "gdrive_cafe0123" "t0"
        DataSourceType.gdrive []).2
        = Except.ok ("gdrive_cafe0123", md)
      ∧ md.status = some "error" ∧ md.error = some "unreachable"
      ∧ ∃ conn,
          dictLookup "gdrive_cafe0123"
            (create_connection connEnvProbeFail mgrEmpty "gdrive_cafe0123" "t0"
              DataSourceType.gdrive []).1._connections
            = some conn
          ∧ conn.client = some 7
          ∧ ∃ m3 conn2,
              get_connection
                (create_connection connEnvProbeFail mgrEmpty "gdrive_cafe0123"
                  "t0" DataSourceType.gdrive []).1
                "gdrive_cafe0123" "t1"
                = Except.ok (m3, conn2)
              ∧ conn2.client = some 7 :=
  C7_probe connEnvProbeFail mgrEmpty "gdrive_cafe0123" "t0" "t1"
    DataSourceType.gdrive [] 7 rfl "unreachable" rfl

/-- C8: `close_connection` on a present identifier returns `true` and a
subsequent `get_connection` fails with the not-found error; on an absent
identifier it returns `false` and leaves the registry unchanged, so
repeated closes are idempotent after the first. -/
theorem C8_close (m : ConnectionManager) (connection_id now : String) :
    ((dictLookup connection_id m._connections).isSome = true →
      (close_connection m connection_id).2 = true
      ∧ get_connection (close_connection m connection_id).1 connection_id now
          = Except.error ("Connection not found: " ++ connection_id))
    ∧ (dictLookup connection_id m._connections = none →
      close_connection m connection_id = (m, false)) := by
  constructor
  · intro h
    constructor
    · simp [close_connection, h]
    · simp [close_connection, h, get_connection, dictLookup_erase_self]
  · intro h
    simp [close_connection, h]

/-- C8, witness: the one-connection registry, closing its sole entry. -/
theorem C8_close_witness :
    ((dictLookup "local_pdf_ab12cd34" mgrOne._connections).isSome = true →
      (close_connection mgrOne "local_pdf_ab12cd34").2 = true
      ∧ get_connection (close_connection mgrOne "local_pdf_ab12cd34").1
          "local_pdf_ab12cd34" "t1"
          = Except.error ("Connection not found: " ++ "local_pdf_ab12cd34"))
    ∧ (dictLookup "local_pdf_ab12cd34" mgrOne._connections = none →
      close_connection mgrOne "local_pdf_ab12cd34" = (mgrOne, false)) :=
  C8_close mgrOne "local_pdf_ab12cd34" "t1"

/-- C10: for a `local_pdf` item whose identifier names an existing file
and whose pipeline run succeeds, the fetch step returns the identifier
itself as the local artifact path without copying, and the
post-processing cleanup deletes that path, so the source file no longer
exists after successful ingestion. -/
theorem C10_local_delete (env : Env) (job : Job) (fs : List String)
    (file_id : String) (hfs : file_id ∈ fs) (c : Nat)
    (hp : env.pipeline file_id = Except.ok c) :
    fetch_and_save_file env fs DataSourceType.local_pdf file_id
      = (some file_id, fs)
    ∧ file_id ∉ (process_one env DataSourceType.local_pdf (job, fs) file_id).2
    ∧ (process_one env DataSourceType.local_pdf (job, fs) file_id).1.completed_files
        = job.completed_files + 1
    ∧ (process_one env DataSourceType.local_pdf (job, fs) file_id).1.progress
        = job.progress ++
          [{ file_id := file_id
             file_name := os_path_basename file_id
             status := "completed"
             chunks_created := some c
             error := none }] := by
  have hfetch : fetch_and_save_file env fs DataSourceType.local_pdf file_id
      = (some file_id, fs) := by
    simp [fetch_and_save_file, hfs]
  refine ⟨hfetch, ?_, ?_, ?_⟩
  · simp [process_one, hfetch, hp, removeFile]
  · simp [process_one, hfetch, hp]
  · simp [process_one, hfetch, hp]

/-- C10, witness: a one-file filesystem with a succeeding pipeline; the
file `a.pdf` is gone afterwards. -/
theorem C10_local_delete_witness :
    fetch_and_save_file envPipeOk ["a.pdf"] DataSourceType.local_pdf "a.pdf"
      = (some "a.pdf", ["a.pdf"])
    ∧ "a.pdf" ∉
        (process_one envPipeOk DataSourceType.local_pdf (jobTwo, ["a.pdf"]) "a.pdf").2
    ∧ (process_one envPipeOk DataSourceType.local_pdf
        (jobTwo, ["a.pdf"]) "a.pdf").1.completed_files
        = jobTwo.completed_files + 1
    ∧ (process_one envPipeOk DataSourceType.local_pdf
        (jobTwo, ["a.pdf"]) "a.pdf").1.progress
        = jobTwo.progress ++
          [{ file_id := "a.pdf"
             file_name := os_path_basename "a.pdf"
             status := "completed"
             chunks_created := some 5
             error := none }] :=
  C10_local_delete envPipeOk jobTwo ["a.pdf"] "a.pdf" (by simp) 5 rfl

/-- C3: for every created job, at every point during processing
`completed_files + failed_files` never exceeds `total_files`, and once the
run finishes the status is terminal (`completed` or `partial`) and
`completed_files + failed_files = total_files`. -/
theorem C3_invariant (env : Env) (st : DataSourceType)
    (s s1 : VectorStoreService) (resp : IngestionResponse)
    (job_id now now2 : String) (req : IngestionRequest) (fs : List String)
    (hc : create_ingestion_job s job_id now req = Except.ok (s1, resp))
    (j : Job) (hj : dictLookup job_id s1.ingestion_jobs = some j) :
    (∀ k, (processState env st j fs k).1.completed_files
        + (processState env st j fs k).1.failed_files ≤ j.total_files)
    ∧ ∃ s2 fs2 jf,
        process_ingestion env s1 fs job_id st now2 = Except.ok (s2, fs2)
        ∧ dictLookup job_id s2.ingestion_jobs = some jf
        ∧ (jf.status = "completed" ∨ jf.status = "partial")
        ∧ jf.completed_files + jf.failed_files = jf.total_files := by
  obtain ⟨cn, hcn, hs1, hresp⟩ := create_ok_elim hc
  subst hs1
  rw [dictLookup_insert_self] at hj
  injection hj with hj'
  subst hj'
  constructor
  · intro k
    unfold processState
    rw [foldl_sum]
    simp only [initial_job, List.length_take]
    omega
  · have hlook := dictLookup_insert_self job_id
      (initial_job job_id now req cn) s.ingestion_jobs
    obtain ⟨s2, fs2, jf, hrun, hlk, hcomp, hfail, htot, hprog, hstat⟩ :=
      process_ingestion_spec env st _ fs job_id now2 _ hlook
    refine ⟨s2, fs2, jf, hrun, hlk, ?_, ?_⟩
    · rw [hstat]
      by_cases h0 : (processState env st (initial_job job_id now req cn) fs
          (initial_job job_id now req cn).file_ids.length).1.failed_files = 0
      · left; simp [h0]
      · right; simp [h0]
    · rw [hcomp, hfail, htot]
      unfold processState
      rw [foldl_sum, (foldl_fields env st _ _).1]
      simp [initial_job, List.take_length]

/-- C3, witness: a two-item local job processed in an environment where
every fetch fails. -/
theorem C3_invariant_witness :
    (∀ k, (processState envNone DataSourceType.local_pdf jobTwo [] k).1.completed_files
        + (processState envNone DataSourceType.local_pdf jobTwo [] k).1.failed_files
        ≤ jobTwo.total_files)
    ∧ ∃ s2 fs2 jf,
        process_ingestion envNone svcTwo [] "job_1" DataSourceType.local_pdf "t1"
          = Except.ok (s2, fs2)
        ∧ dictLookup "job_1" s2.ingestion_jobs = some jf
        ∧ (jf.status = "completed" ∨ jf.status = "partial")
        ∧ jf.completed_files + jf.failed_files = jf.total_files :=
  C3_invariant envNone DataSourceType.local_pdf svcEmpty svcTwo respTwo
    "job_1" "t0" "t1" reqTwo [] rfl jobTwo rfl

/-- C5: per-item failures are contained — after processing, every
requested item has a Progress record (the loop never aborts), every failed
record carries error text, and the job status is `completed` exactly when
`failed_files = 0` (else `partial`): the terminal status is the only
job-level failure signal. -/
theorem C5_contained (env : Env) (st : DataSourceType)
    (s s1 : VectorStoreService) (resp : IngestionResponse)
    (job_id now now2 : String) (req : IngestionRequest) (fs : List String)
    (hc : create_ingestion_job s job_id now req = Except.ok (s1, resp)) :
    ∃ s2 fs2 jf,
      process_ingestion env s1 fs job_id st now2 = Except.ok (s2, fs2)
      ∧ dictLookup job_id s2.ingestion_jobs = some jf
      ∧ jf.progress.length = jf.total_files
      ∧ (∀ r ∈ jf.progress, r.status = "failed" → ∃ e, r.error = some e)
      ∧ (jf.status = "completed" ↔ jf.failed_files = 0)
      ∧ (jf.status = "completed" ∨ jf.status = "partial") := by
  obtain ⟨cn, hcn, hs1, hresp⟩ := create_ok_elim hc
  subst hs1
  have hlook := dictLookup_insert_self job_id
    (initial_job job_id now req cn) s.ingestion_jobs
  obtain ⟨s2, fs2, jf, hrun, hlk, hcomp, hfail, htot, hprog, hstat⟩ :=
    process_ingestion_spec env st _ fs job_id now2 _ hlook
  refine ⟨s2, fs2, jf, hrun, hlk, ?_, ?_, ?_, ?_⟩
  · have hlen : jf.progress.map (fun r => r.file_id)
        = (initial_job job_id now req cn).file_ids.take
            (initial_job job_id now req cn).file_ids.length := by
      rw [hprog]
      unfold processState
      rw [foldl_fids]
      simp [initial_job]
    have := congrArg List.length hlen
    rw [List.length_map, List.length_take] at this
    rw [this, htot]
    unfold processState
    rw [(foldl_fields env st _ _).1]
    simp [initial_job]
  · rw [hprog]
    unfold processState
    refine foldl_err env st _ _ ?_
    simp [initial_job]
  · rw [hstat, hfail]
    by_cases h0 : (processState env st (initial_job job_id now req cn) fs
        (initial_job job_id now req cn).file_ids.length).1.failed_files = 0
    · simp [h0]
    · simp [h0]
  · rw [hstat]
    by_cases h0 : (processState env st (initial_job job_id now req cn) fs
        (initial_job job_id now req cn).file_ids.length).1.failed_files = 0
    · left; simp [h0]
    · right; simp [h0]

/-- C5, witness: the two-item local job in the all-failures environment. -/
theorem C5_contained_witness :
    ∃ s2 fs2 jf,
      process_ingestion envNone svcTwo [] "job_1" DataSourceType.local_pdf "t1"
        = Except.ok (s2, fs2)
      ∧ dictLookup "job_1" s2.ingestion_jobs = some jf
      ∧ jf.progress.length = jf.total_files
      ∧ (∀ r ∈ jf.progress, r.status = "failed" → ∃ e, r.error = some e)
      ∧ (jf.status = "completed" ↔ jf.failed_files = 0)
      ∧ (jf.status = "completed" ∨ jf.status = "partial") :=
  C5_contained envNone DataSourceType.local_pdf svcEmpty svcTwo respTwo
    "job_1" "t0" "t1" reqTwo [] rfl

/-- C6: a non-empty job processed against an unimplemented source type
(confluence or jira) terminates `partial` with `completed_files = 0`,
`failed_files = total_files`, one Progress record per item, and every
record `failed` with the non-empty error text `Failed to fetch file`
(nothing is silently skipped). -/
theorem C6_unsupported (env : Env) (st : DataSourceType)
    (s s1 : VectorStoreService) (resp : IngestionResponse)
    (job_id now now2 : String) (req : IngestionRequest) (fs : List String)
    (hst : st = DataSourceType.confluence ∨ st = DataSourceType.jira)
    (hne : req.file_ids ≠ [])
    (hc : create_ingestion_job s job_id now req = Except.ok (s1, resp)) :
    ∃ s2 fs2 jf,
      process_ingestion env s1 fs job_id st now2 = Except.ok (s2, fs2)
      ∧ dictLookup job_id s2.ingestion_jobs = some jf
      ∧ jf.status = "partial"
      ∧ jf.completed_files = 0
      ∧ jf.failed_files = jf.total_files
      ∧ jf.total_files = req.file_ids.length
      ∧ jf.progress.length = req.file_ids.length
      ∧ ∀ r ∈ jf.progress, r.status = "failed"
          ∧ ∃ e, r.error = some e ∧ e ≠ "" := by
  obtain ⟨cn, hcn, hs1, hresp⟩ := create_ok_elim hc
  subst hs1
  have hlook := dictLookup_insert_self job_id
    (initial_job job_id now req cn) s.ingestion_jobs
  obtain ⟨s2, fs2, jf, hrun, hlk, hcomp, hfail, htot, hprog, hstat⟩ :=
    process_ingestion_spec env st _ fs job_id now2 _ hlook
  have hclosed : processState env st (initial_job job_id now req cn) fs
      (initial_job job_id now req cn).file_ids.length
      = ({ initial_job job_id now req cn with
            status := "in_progress"
            failed_files := req.file_ids.length
            progress := req.file_ids.map (fun x =>
              { file_id := x
                file_name := x
                status := "failed"
                chunks_created := some 0
                error := some "Failed to fetch file" }) }, fs) := by
    unfold processState
    rw [foldl_unsupported env st hst]
    simp [initial_job, List.take_length]
  refine ⟨s2, fs2, jf, hrun, hlk, ?_, ?_, ?_, ?_, ?_, ?_⟩
  · rw [hstat, hclosed]
    simp only []
    have : req.file_ids.length ≠ 0 := by
      simpa [List.length_eq_zero] using hne
    simp [this]
  · rw [hcomp, hclosed]
    simp [initial_job]
  · rw [hfail, htot, hclosed]
    simp [initial_job]
  · rw [htot, hclosed]
    simp [initial_job]
  · rw [hprog, hclosed]
    simp
  · rw [hprog, hclosed]
    intro r hr
    simp at hr
    obtain ⟨x, _, hx⟩ := hr
    subst hx
    exact ⟨rfl, "Failed to fetch file", rfl, by simp⟩

/-- C6, witness: the two-item job processed as confluence. -/
theorem C6_unsupported_witness :
    ∃ s2 fs2 jf,
      process_ingestion envNone svcTwo [] "job_1" DataSourceType.confluence "t1"
        = Except.ok (s2, fs2)
      ∧ dictLookup "job_1" s2.ingestion_jobs = some jf
      ∧ jf.status = "partial"
      ∧ jf.completed_files = 0
      ∧ jf.failed_files = jf.total_files
      ∧ jf.total_files = reqTwo.file_ids.length
      ∧ jf.progress.length = reqTwo.file_ids.length
      ∧ ∀ r ∈ jf.progress, r.status = "failed"
          ∧ ∃ e, r.error = some e ∧ e ≠ "" :=
  C6_unsupported envNone DataSourceType.confluence svcEmpty svcTwo respTwo
    "job_1" "t0" "t1" reqTwo [] (Or.inl rfl) (by decide) rfl

/-- C9: the item identifiers carried by the Progress records always form
the prefix of the submitted identifier list corresponding to the items
processed so far, and after completion `get_job_status` returns Progress
records whose identifiers equal the full submission order, regardless of
per-item outcomes. -/
theorem C9_order (env : Env) (st : DataSourceType)
    (s s1 : VectorStoreService) (resp : IngestionResponse)
    (job_id now now2 : String) (req : IngestionRequest) (fs : List String)
    (hc : create_ingestion_job s job_id now req = Except.ok (s1, resp))
    (j : Job) (hj : dictLookup job_id s1.ingestion_jobs = some j) :
    (∀ k, (processState env st j fs k).1.progress.map (fun r => r.file_id)
        = j.file_ids.take k)
    ∧ ∃ s2 fs2 ist,
        process_ingestion env s1 fs job_id st now2 = Except.ok (s2, fs2)
        ∧ get_job_status s2 job_id = Except.ok ist
        ∧ ist.progress.map (fun r => r.file_id) = j.file_ids := by
  obtain ⟨cn, hcn, hs1, hresp⟩ := create_ok_elim hc
  subst hs1
  rw [dictLookup_insert_self] at hj
  injection hj with hj'
  subst hj'
  constructor
  · intro k
    unfold processState
    rw [foldl_fids]
    simp [initial_job]
  · have hlook := dictLookup_insert_self job_id
      (initial_job job_id now req cn) s.ingestion_jobs
    obtain ⟨s2, fs2, jf, hrun, hlk, hcomp, hfail, htot, hprog, hstat⟩ :=
      process_ingestion_spec env st _ fs job_id now2 _ hlook
    refine ⟨s2, fs2,
      { job_id := jf.job_id
        status := jf.status
        total_files := jf.total_files
        completed_files := jf.completed_files
        failed_files := jf.failed_files
        progress := jf.progress
        started_at := some jf.started_at
        completed_at := jf.completed_at }, hrun, ?_, ?_⟩
    · unfold get_job_status
      rw [hlk]
    · show jf.progress.map (fun r => r.file_id)
        = (initial_job job_id now req cn).file_ids
      rw [hprog]
      unfold processState
      rw [foldl_fids]
      simp [initial_job, List.take_length]

/-- C9, witness: the two-item local job in the all-failures environment;
the reported identifiers equal the submitted ones in order. -/
theorem C9_order_witness :
    (∀ k, (processState envNone DataSourceType.local_pdf jobTwo [] k).1.progress.map
        (fun r => r.file_id) = jobTwo.file_ids.take k)
    ∧ ∃ s2 fs2 ist,
        process_ingestion envNone svcTwo [] "job_1" DataSourceType.local_pdf "t1"
          = Except.ok (s2, fs2)
        ∧ get_job_status s2 "job_1" = Except.ok ist
        ∧ ist.progress.map (fun r => r.file_id) = jobTwo.file_ids :=
  C9_order envNone DataSourceType.local_pdf svcEmpty svcTwo respTwo
    "job_1" "t0" "t1" reqTwo [] rfl jobTwo rfl

end DataAPI
